import Mathlib

/-!
Verification of the FlyteBase DSM mission lifecycle core.

Shallow embedding of the mission controller (`missionController.ts`) and the
WebSocket telemetry handlers (`websocket/setup.ts`): missions and drones live
in an in-memory store, every controller operation is a pure function from the
store (plus request parameters and the current clock value) to a response, a
new store, and the ordered list of emitted events.  Prisma's
`findUnique`/`update`/`delete` calls become lookups and per-id updates on
association lists; `new Date()` becomes an explicit `now : Nat` parameter;
HTTP error responses keep their status code and message string from the
source.  `startMission`'s read phase and write phase are split into
`startRead`/`startCommit` so that interleavings of two concurrent calls (each
phase one atomic store round trip, exactly the `await` points of the source)
can be expressed.
-/

/-- Mission lifecycle states, from the Prisma `MissionStatus` enum. -/
inductive MissionStatus where
  | PLANNED
  | SCHEDULED
  | IN_PROGRESS
  | PAUSED
  | COMPLETED
  | ABORTED
  | FAILED
deriving DecidableEq, Repr

/-- Drone operational states, from the Prisma `DroneStatus` enum. -/
inductive DroneStatus where
  | AVAILABLE
  | IN_MISSION
  | MAINTENANCE
  | OFFLINE
  | ERROR
deriving DecidableEq, Repr

/-- A drone row: identity, operational status, battery level. -/
structure Drone where
  id : Nat
  status : DroneStatus
  batteryLevel : Nat
deriving DecidableEq, Repr

/-- A mission row.  `droneId` is the optional assigned drone reference;
`startedAt`/`completedAt` are timestamps (clock values); the three metrics
are set on completion.  `fields` stands for the bundle of editable payload
fields (name, description, pattern, ...) that `updateMission` replaces. -/
structure Mission where
  id : Nat
  status : MissionStatus
  droneId : Option Nat
  startedAt : Option Nat
  completedAt : Option Nat
  actualDuration : Option Nat
  actualDistance : Option Nat
  coverageArea : Option Nat
  fields : Nat
deriving DecidableEq, Repr

/-- The persistent store: the mission table and the drone table. -/
structure DB where
  missions : List Mission
  drones : List Drone
deriving DecidableEq, Repr

/-- Lookup of a mission row: `prisma.mission.findUnique({ where: { id } })`. -/
def findMission (db : DB) (id : Nat) : Option Mission :=
  db.missions.find? (fun m => m.id == id)

/-- Lookup of a drone row: `prisma.drone.findUnique({ where: { id } })`. -/
def findDrone (db : DB) (id : Nat) : Option Drone :=
  db.drones.find? (fun d => d.id == id)

/-- Write of `prisma.mission.update({ where: { id }, data: ... })` applied to the store. -/
def updMission (db : DB) (id : Nat) (f : Mission → Mission) : DB :=
  { db with missions := db.missions.map (fun m => if m.id == id then f m else m) }

/-- Write of `prisma.drone.update({ where: { id }, data: ... })` applied to the store. -/
def updDrone (db : DB) (id : Nat) (f : Drone → Drone) : DB :=
  { db with drones := db.drones.map (fun d => if d.id == id then f d else d) }

/-- WebSocket events emitted by the operations the claims mention,
each carrying the snapshot the source passes to `io.emit`. -/
inductive Event where
  | missionUpdated (m : Mission)
  | missionStarted (m : Mission)
  | missionPaused (m : Mission)
  | missionResumed (m : Mission)
  | missionAborted (m : Mission)
  | missionCompleted (m : Mission)
  | missionFailed (m : Mission) (reason : String)
  | droneStatusUpdated (d : Drone)
  | missionDeleted (id : Nat)
deriving DecidableEq, Repr

/-- The response sent back to the caller: a mission payload on success,
a bare success for deletion, or an HTTP error status plus message. -/
inductive Resp where
  | okMission (m : Mission)
  | okDelete
  | httpError (code : Nat) (msg : String)
deriving DecidableEq, Repr

/-- Whether a response is a success. -/
def Resp.isOk : Resp → Bool
  | .okMission _ => true
  | .okDelete => true
  | .httpError _ _ => false

/-- Result of one operation: the response, the store after it, and the
events emitted, in emission order. -/
structure Outcome where
  resp : Resp
  db : DB
  events : List Event
deriving DecidableEq, Repr

/-- The `data:` payloads of the source's `prisma.mission.update` /
`prisma.drone.update` calls, as named row mutators. -/
def setStarted (now : Nat) (mm : Mission) : Mission :=
  { mm with status := .IN_PROGRESS, startedAt := some now }

/-- Payload `data: { status: 'PAUSED' }`. -/
def setPaused (mm : Mission) : Mission :=
  { mm with status := .PAUSED }

/-- Payload `data: { status: 'IN_PROGRESS' }` (resume). -/
def setResumed (mm : Mission) : Mission :=
  { mm with status := .IN_PROGRESS }

/-- Payload `data: { status: 'ABORTED', completedAt: new Date() }`. -/
def setAborted (now : Nat) (mm : Mission) : Mission :=
  { mm with status := .ABORTED, completedAt := some now }

/-- Payload `data: { status: 'COMPLETED', completedAt, actualDuration, actualDistance, coverageArea }`. -/
def setCompleted (dur dist cov now : Nat) (mm : Mission) : Mission :=
  { mm with
    status := .COMPLETED, completedAt := some now, actualDuration := some dur,
    actualDistance := some dist, coverageArea := some cov }

/-- Payload `data: { status: 'FAILED', completedAt: new Date() }`. -/
def setFailed (now : Nat) (mm : Mission) : Mission :=
  { mm with status := .FAILED, completedAt := some now }

/-- Payload `data: updateData` of `updateMission`: the editable payload replaced. -/
def setFields (nf : Nat) (mm : Mission) : Mission :=
  { mm with fields := nf }

/-- Payload `data: { status: ... }` on a drone row. -/
def setDroneStatus (s : DroneStatus) (dd : Drone) : Drone :=
  { dd with status := s }

/-- Handler `updateMission` (missionController): 404 when the mission is unknown,
400 when its status is IN_PROGRESS, COMPLETED, ABORTED or FAILED, otherwise
the editable fields are replaced and `mission:updated` is emitted.  Note the
source's guard list does not contain PAUSED. -/
def updateMission (db : DB) (id : Nat) (newFields : Nat) : Outcome :=
  match findMission db id with
  | none => ⟨.httpError 404 "Mission not found", db, []⟩
  | some m =>
    if m.status = .IN_PROGRESS ∨ m.status = .COMPLETED ∨
        m.status = .ABORTED ∨ m.status = .FAILED then
      ⟨.httpError 400 "Cannot update mission that is in progress or completed", db, []⟩
    else
      let m' := setFields newFields m
      ⟨.okMission m', updMission db id (setFields newFields),
        [.missionUpdated m']⟩

/-- Handler `deleteMission`: 404 when unknown, 400 when IN_PROGRESS, otherwise the
mission row is removed and `mission:deleted` is emitted.  No drone row is
touched in the source. -/
def deleteMission (db : DB) (id : Nat) : Outcome :=
  match findMission db id with
  | none => ⟨.httpError 404 "Mission not found", db, []⟩
  | some m =>
    if m.status = .IN_PROGRESS then
      ⟨.httpError 400 "Cannot delete mission that is in progress", db, []⟩
    else
      ⟨.okDelete, { db with missions := db.missions.filter (fun mm => mm.id != id) },
        [.missionDeleted id]⟩

/-- The snapshot `startMission` reads in its first store round trip:
the mission row together with its included drone row. -/
structure StartSnapshot where
  mission : Mission
  drone : Option Drone
deriving DecidableEq, Repr

/-- Read phase of `startMission`: `prisma.mission.findUnique({ where: { id },
include: { drone: true } })`. -/
def startRead (db : DB) (id : Nat) : Option StartSnapshot :=
  (findMission db id).map (fun m => ⟨m, m.droneId.bind (findDrone db)⟩)

/-- Validate-and-write phase of `startMission`.  Validation inspects only the
snapshot (the source checks `mission.status`, `mission.droneId`,
`mission.drone?.status` on the row it read); the two writes of the
`Promise.all` then hit the current store unconditionally.  The unreachable
branch where a row vanished between read and write mirrors the thrown Prisma
error that the `catch` turns into a 500. -/
def startCommit (db : DB) (id : Nat) (osnap : Option StartSnapshot) (now : Nat) : Outcome :=
  match osnap with
  | none => ⟨.httpError 404 "Mission not found", db, []⟩
  | some snap =>
    if ¬ (snap.mission.status = .PLANNED ∨ snap.mission.status = .SCHEDULED) then
      ⟨.httpError 400 "Mission can only be started if it is planned or scheduled", db, []⟩
    else
      match snap.mission.droneId with
      | none => ⟨.httpError 400 "Mission must have an assigned drone to start", db, []⟩
      | some did =>
        if ¬ snap.drone.map Drone.status = some .AVAILABLE then
          ⟨.httpError 400 "Assigned drone is not available", db, []⟩
        else
          match findMission db id, findDrone db did with
          | some mCur, some dCur =>
            let m' := setStarted now mCur
            let d' := setDroneStatus .IN_MISSION dCur
            let db' := updDrone (updMission db id (setStarted now))
              did (setDroneStatus .IN_MISSION)
            ⟨.okMission m', db', [.missionStarted m', .droneStatusUpdated d']⟩
          | _, _ => ⟨.httpError 500 "Failed to start mission", db, []⟩

/-- Handler `startMission`: the read phase immediately followed by the
validate-and-write phase on the same store (the sequential, uncontended
execution of the source handler). -/
def startMission (db : DB) (id : Nat) (now : Nat) : Outcome :=
  startCommit db id (startRead db id) now

/-- Handler `pauseMission`: 404 when unknown, 400 unless IN_PROGRESS, otherwise the
status becomes PAUSED and `mission:paused` is emitted. -/
def pauseMission (db : DB) (id : Nat) : Outcome :=
  match findMission db id with
  | none => ⟨.httpError 404 "Mission not found", db, []⟩
  | some m =>
    if m.status = .IN_PROGRESS then
      let m' := setPaused m
      ⟨.okMission m', updMission db id setPaused, [.missionPaused m']⟩
    else
      ⟨.httpError 400 "Mission can only be paused if it is in progress", db, []⟩

/-- Handler `resumeMission`: 404 when unknown, 400 unless PAUSED, otherwise the
status becomes IN_PROGRESS and `mission:resumed` is emitted. -/
def resumeMission (db : DB) (id : Nat) : Outcome :=
  match findMission db id with
  | none => ⟨.httpError 404 "Mission not found", db, []⟩
  | some m =>
    if m.status = .PAUSED then
      let m' := setResumed m
      ⟨.okMission m', updMission db id setResumed, [.missionResumed m']⟩
    else
      ⟨.httpError 400 "Mission can only be resumed if it is paused", db, []⟩

/-- Handler `abortMission`: 404 when unknown, 400 unless IN_PROGRESS or PAUSED,
otherwise the mission becomes ABORTED with `completedAt` set and, when a
drone is assigned, that drone becomes AVAILABLE; `mission:aborted` is emitted
first, then `drone:status_updated` when a drone was updated. -/
def abortMission (db : DB) (id : Nat) (now : Nat) : Outcome :=
  match findMission db id with
  | none => ⟨.httpError 404 "Mission not found", db, []⟩
  | some m =>
    if ¬ (m.status = .IN_PROGRESS ∨ m.status = .PAUSED) then
      ⟨.httpError 400 "Mission can only be aborted if it is in progress or paused", db, []⟩
    else
      let m' := setAborted now m
      match m.droneId with
      | none =>
        ⟨.okMission m', updMission db id (setAborted now), [.missionAborted m']⟩
      | some did =>
        match findDrone db did with
        | none => ⟨.httpError 500 "Failed to abort mission", db, []⟩
        | some d =>
          let d' := setDroneStatus .AVAILABLE d
          let db' := updDrone (updMission db id (setAborted now))
            did (setDroneStatus .AVAILABLE)
          ⟨.okMission m', db', [.missionAborted m', .droneStatusUpdated d']⟩

/-- The `mission:complete` WebSocket handler: it updates the mission to
COMPLETED with `completedAt` and the three metrics WITHOUT any check of the
current status, sets the assigned drone (if any) to AVAILABLE, and emits
`mission:completed` then `drone:status_updated`.  The handler has no HTTP
response; a thrown store error is only logged, modelled here as a 500
response carrying the logger message. -/
def missionCompleteHandler (db : DB) (missionId : Nat)
    (dur dist cov : Nat) (now : Nat) : Outcome :=
  match findMission db missionId with
  | none => ⟨.httpError 500 "Error completing mission", db, []⟩
  | some m =>
    let m' := setCompleted dur dist cov now m
    match m.droneId with
    | none =>
      ⟨.okMission m', updMission db missionId (setCompleted dur dist cov now),
        [.missionCompleted m']⟩
    | some did =>
      match findDrone db did with
      | none => ⟨.httpError 500 "Error completing mission", db, []⟩
      | some d =>
        let d' := setDroneStatus .AVAILABLE d
        let db' := updDrone (updMission db missionId (setCompleted dur dist cov now)) did
          (setDroneStatus .AVAILABLE)
        ⟨.okMission m', db', [.missionCompleted m', .droneStatusUpdated d']⟩

/-- The `mission:failed` WebSocket handler: it updates the mission to FAILED
with `completedAt` WITHOUT any check of the current status, sets the assigned
drone (if any) to ERROR, and emits `mission:failed` (payload carries the
supplied reason) then `drone:status_updated`. -/
def missionFailedHandler (db : DB) (missionId : Nat)
    (reason : String) (now : Nat) : Outcome :=
  match findMission db missionId with
  | none => ⟨.httpError 500 "Error handling mission failure", db, []⟩
  | some m =>
    let m' := setFailed now m
    match m.droneId with
    | none =>
      ⟨.okMission m', updMission db missionId (setFailed now), [.missionFailed m' reason]⟩
    | some did =>
      match findDrone db did with
      | none => ⟨.httpError 500 "Error handling mission failure", db, []⟩
      | some d =>
        let d' := setDroneStatus .ERROR d
        let db' := updDrone (updMission db missionId (setFailed now)) did
          (setDroneStatus .ERROR)
        ⟨.okMission m', db', [.missionFailed m' reason, .droneStatusUpdated d']⟩

/-- Behaviour of `startMission` under a store failure of the drone write: the source runs
the mission update and the drone update as two independent store
transactions inside a `Promise.all` with no enclosing transaction, so when
the drone write fails the already-committed mission update is not rolled
back; the `catch` block only responds 500.  This definition is the source's
control flow with the drone write replaced by a store failure. -/
def startMissionDroneWriteFails (db : DB) (id : Nat) (now : Nat) : Outcome :=
  match startRead db id with
  | none => ⟨.httpError 404 "Mission not found", db, []⟩
  | some snap =>
    if ¬ (snap.mission.status = .PLANNED ∨ snap.mission.status = .SCHEDULED) then
      ⟨.httpError 400 "Mission can only be started if it is planned or scheduled", db, []⟩
    else
      match snap.mission.droneId with
      | none => ⟨.httpError 400 "Mission must have an assigned drone to start", db, []⟩
      | some _ =>
        if ¬ snap.drone.map Drone.status = some .AVAILABLE then
          ⟨.httpError 400 "Assigned drone is not available", db, []⟩
        else
          ⟨.httpError 500 "Failed to start mission",
            updMission db id (setStarted now), []⟩

/-! ### Concrete stores used as witnesses and counterexamples -/

/-- One PLANNED mission assigned drone 7; drone 7 AVAILABLE. -/
def dbC1 : DB :=
  ⟨[⟨1, .PLANNED, some 7, none, none, none, none, none, 0⟩],
   [⟨7, .AVAILABLE, 100⟩]⟩

/-- Two PLANNED missions (ids 1 and 2) both assigned drone 7; drone 7 AVAILABLE. -/
def dbC2 : DB :=
  ⟨[⟨1, .PLANNED, some 7, none, none, none, none, none, 0⟩,
    ⟨2, .PLANNED, some 7, none, none, none, none, none, 0⟩],
   [⟨7, .AVAILABLE, 100⟩]⟩

/-- A COMPLETED (terminal) mission with recorded metrics, assigned drone 7. -/
def dbC3 : DB :=
  ⟨[⟨1, .COMPLETED, some 7, some 1, some 2, some 10, some 20, some 30, 0⟩],
   [⟨7, .AVAILABLE, 100⟩]⟩

/-- One PLANNED mission with no assigned drone. -/
def dbC4 : DB :=
  ⟨[⟨1, .PLANNED, none, none, none, none, none, none, 0⟩], []⟩

/-- An ABORTED mission, used to exercise every controller guard at once. -/
def dbC4t : DB :=
  ⟨[⟨1, .ABORTED, none, some 1, some 2, none, none, none, 0⟩], []⟩

/-- One PLANNED mission assigned drone 7; drone 7 AVAILABLE (C5 fixture). -/
def dbC5 : DB :=
  ⟨[⟨1, .PLANNED, some 7, none, none, none, none, none, 0⟩],
   [⟨7, .AVAILABLE, 100⟩]⟩

/-- An IN_PROGRESS mission assigned drone 7; drone 7 IN_MISSION. -/
def dbC6 : DB :=
  ⟨[⟨1, .IN_PROGRESS, some 7, some 1, none, none, none, none, 0⟩],
   [⟨7, .IN_MISSION, 80⟩]⟩

/-- A PAUSED mission (no drone). -/
def dbC7 : DB :=
  ⟨[⟨1, .PAUSED, none, some 1, none, none, none, none, 0⟩], []⟩

/-- A PLANNED mission with drone 7 AVAILABLE (C8 start fixture). -/
def dbC8s : DB :=
  ⟨[⟨1, .PLANNED, some 7, none, none, none, none, none, 0⟩],
   [⟨7, .AVAILABLE, 100⟩]⟩

/-- An IN_PROGRESS mission with drone 7 IN_MISSION (C8 abort fixture). -/
def dbC8a : DB :=
  ⟨[⟨1, .IN_PROGRESS, some 7, some 1, none, none, none, none, 0⟩],
   [⟨7, .IN_MISSION, 80⟩]⟩

/-- An IN_PROGRESS mission with drone 7 IN_MISSION (C9 fixture). -/
def dbC9 : DB :=
  ⟨[⟨1, .IN_PROGRESS, some 7, some 1, none, none, none, none, 0⟩],
   [⟨7, .IN_MISSION, 60⟩]⟩

/-- A PAUSED mission still holding drone 7 (IN_MISSION). -/
def dbC10 : DB :=
  ⟨[⟨1, .PAUSED, some 7, some 1, none, none, none, none, 0⟩],
   [⟨7, .IN_MISSION, 70⟩]⟩

/-! ### Store lemmas -/

/-- Lookup `find?` after a per-id `map` update: updating the entries whose id
matches the searched id commutes with the lookup, provided the update
preserves ids. -/
theorem find_map_upd {α : Type} (idOf : α → Nat) (f : α → α) (id : Nat)
    (h : ∀ a, idOf (f a) = idOf a) (l : List α) :
    (l.map (fun a => if idOf a == id then f a else a)).find? (fun a => idOf a == id)
      = (l.find? (fun a => idOf a == id)).map f := by
  induction l with
  | nil => rfl
  | cons a t ih =>
    simp only [List.map_cons, List.find?_cons]
    by_cases hc : (idOf a == id) = true
    · have hfa : (idOf (f a) == id) = true := by rw [h]; exact hc
      rw [if_pos hc, hfa, hc]
      rfl
    · have hcf : (idOf a == id) = false := by simpa using hc
      rw [if_neg hc, hcf]
      exact ih

theorem findMission_updDrone (db : DB) (did id : Nat) (f : Drone → Drone) :
    findMission (updDrone db did f) id = findMission db id := rfl

theorem findDrone_updMission (db : DB) (mid id : Nat) (f : Mission → Mission) :
    findDrone (updMission db mid f) id = findDrone db id := rfl

theorem findMission_updMission (db : DB) (id : Nat) (f : Mission → Mission)
    (h : ∀ m, (f m).id = m.id) :
    findMission (updMission db id f) id = (findMission db id).map f :=
  find_map_upd Mission.id f id h db.missions

theorem findDrone_updDrone (db : DB) (id : Nat) (f : Drone → Drone)
    (h : ∀ d, (f d).id = d.id) :
    findDrone (updDrone db id f) id = (findDrone db id).map f :=
  find_map_upd Drone.id f id h db.drones

/-! ### Branch characterizations of startMission -/

/-- Unknown mission id: 404, store unchanged, no events. -/
theorem startMission_notFound (db : DB) (id now : Nat)
    (hm : findMission db id = none) :
    startMission db id now = ⟨.httpError 404 "Mission not found", db, []⟩ := by
  unfold startMission startCommit startRead
  rw [hm]
  rfl

/-- Source state not PLANNED/SCHEDULED: 400, store unchanged, no events. -/
theorem startMission_badStatus (db : DB) (id now : Nat) (m : Mission)
    (hm : findMission db id = some m)
    (hs : ¬ (m.status = MissionStatus.PLANNED ∨ m.status = MissionStatus.SCHEDULED)) :
    startMission db id now =
      ⟨.httpError 400 "Mission can only be started if it is planned or scheduled", db, []⟩ := by
  unfold startMission startCommit startRead
  rw [hm]
  simp [hs]

/-- No assigned drone: 400, store unchanged, no events. -/
theorem startMission_noDrone (db : DB) (id now : Nat) (m : Mission)
    (hm : findMission db id = some m)
    (hs : m.status = MissionStatus.PLANNED ∨ m.status = MissionStatus.SCHEDULED)
    (hdid : m.droneId = none) :
    startMission db id now =
      ⟨.httpError 400 "Mission must have an assigned drone to start", db, []⟩ := by
  unfold startMission startCommit startRead
  rw [hm]
  simp [hs, hdid]

/-- Assigned drone row absent from the registry: 400, store unchanged. -/
theorem startMission_droneAbsent (db : DB) (id now : Nat) (m : Mission) (did : Nat)
    (hm : findMission db id = some m)
    (hs : m.status = MissionStatus.PLANNED ∨ m.status = MissionStatus.SCHEDULED)
    (hdid : m.droneId = some did)
    (hd : findDrone db did = none) :
    startMission db id now =
      ⟨.httpError 400 "Assigned drone is not available", db, []⟩ := by
  unfold startMission startCommit startRead
  rw [hm]
  simp [hs, hdid, hd]

/-- Assigned drone not AVAILABLE: 400, store unchanged, no events. -/
theorem startMission_droneBusy (db : DB) (id now : Nat) (m : Mission) (did : Nat) (d : Drone)
    (hm : findMission db id = some m)
    (hs : m.status = MissionStatus.PLANNED ∨ m.status = MissionStatus.SCHEDULED)
    (hdid : m.droneId = some did)
    (hd : findDrone db did = some d)
    (hda : ¬ d.status = DroneStatus.AVAILABLE) :
    startMission db id now =
      ⟨.httpError 400 "Assigned drone is not available", db, []⟩ := by
  unfold startMission startCommit startRead
  rw [hm]
  simp [hs, hdid, hd, hda]

/-- All preconditions hold: the mission goes to IN_PROGRESS with `startedAt`
set, the drone to IN_MISSION, and `mission:started` precedes
`drone:status_updated`. -/
theorem startMission_success (db : DB) (id now : Nat) (m : Mission) (did : Nat) (d : Drone)
    (hm : findMission db id = some m)
    (hs : m.status = MissionStatus.PLANNED ∨ m.status = MissionStatus.SCHEDULED)
    (hdid : m.droneId = some did)
    (hd : findDrone db did = some d)
    (hda : d.status = DroneStatus.AVAILABLE) :
    startMission db id now =
      ⟨.okMission (setStarted now m),
       updDrone (updMission db id (setStarted now)) did (setDroneStatus .IN_MISSION),
       [.missionStarted (setStarted now m),
        .droneStatusUpdated (setDroneStatus .IN_MISSION d)]⟩ := by
  unfold startMission startCommit startRead
  rw [hm]
  simp [hs, hdid, hd, hda]

/-! ### C1: startMission functional correctness -/

/-- C1: `startMission(id)` succeeds if and only if the mission exists, its
status is PLANNED or SCHEDULED, it has an assigned drone, and that drone's
status is AVAILABLE; on success the mission's status becomes IN_PROGRESS with
`startedAt` set and the drone's status becomes IN_MISSION; otherwise an error
is returned and neither record changes. -/
theorem C1_startMission_correct (db : DB) (id now : Nat) :
    (((startMission db id now).resp.isOk = true) ↔
      (∃ m did d, findMission db id = some m ∧
        (m.status = MissionStatus.PLANNED ∨ m.status = MissionStatus.SCHEDULED) ∧
        m.droneId = some did ∧ findDrone db did = some d ∧
        d.status = DroneStatus.AVAILABLE)) ∧
    (((startMission db id now).resp.isOk = false) → (startMission db id now).db = db) ∧
    (∀ m did d, findMission db id = some m →
      (m.status = MissionStatus.PLANNED ∨ m.status = MissionStatus.SCHEDULED) →
      m.droneId = some did → findDrone db did = some d →
      d.status = DroneStatus.AVAILABLE →
      (startMission db id now).resp =
          Resp.okMission { m with status := MissionStatus.IN_PROGRESS, startedAt := some now } ∧
      findMission (startMission db id now).db id =
          some { m with status := MissionStatus.IN_PROGRESS, startedAt := some now } ∧
      findDrone (startMission db id now).db did =
          some { d with status := DroneStatus.IN_MISSION }) := by
  cases hm : findMission db id with
  | none =>
    rw [startMission_notFound db id now hm]
    refine ⟨?_, ?_, ?_⟩ <;> simp [Resp.isOk]
  | some m =>
    by_cases hs : (m.status = MissionStatus.PLANNED ∨ m.status = MissionStatus.SCHEDULED)
    · cases hdid : m.droneId with
      | none =>
        rw [startMission_noDrone db id now m hm hs hdid]
        refine ⟨?_, ?_, ?_⟩
        · simp [Resp.isOk, hdid]
        · intro _; rfl
        · intro ma dida da hma hsa hdida hda' hsta
          injection hma with hma
          subst hma
          rw [hdid] at hdida
          exact absurd hdida (by simp)
      | some did =>
        cases hd : findDrone db did with
        | none =>
          rw [startMission_droneAbsent db id now m did hm hs hdid hd]
          refine ⟨?_, ?_, ?_⟩
          · simp [Resp.isOk, hdid, hd]
          · intro _; rfl
          · intro ma dida da hma hsa hdida hda' hsta
            injection hma with hma
            subst hma
            rw [hdid] at hdida
            injection hdida with hdida
            subst hdida
            rw [hd] at hda'
            exact absurd hda' (by simp)
        | some d =>
          by_cases hda : d.status = DroneStatus.AVAILABLE
          · rw [startMission_success db id now m did d hm hs hdid hd hda]
            refine ⟨?_, ?_, ?_⟩
            · constructor
              · intro _
                exact ⟨m, did, d, rfl, hs, hdid, hd, hda⟩
              · intro _
                rfl
            · intro hfalse
              exact absurd hfalse (by simp [Resp.isOk])
            · intro ma dida da hma hsa hdida hda' hsta
              injection hma with hma
              subst hma
              rw [hdid] at hdida
              injection hdida with hdida
              subst hdida
              rw [hd] at hda'
              injection hda' with hda'
              subst hda'
              refine ⟨rfl, ?_, ?_⟩
              · dsimp only
                rw [findMission_updDrone,
                  findMission_updMission db id (setStarted now) (fun _ => rfl), hm]
                rfl
              · dsimp only
                rw [findDrone_updDrone (updMission db id (setStarted now)) did
                    (setDroneStatus .IN_MISSION) (fun _ => rfl),
                  findDrone_updMission, hd]
                rfl
          · rw [startMission_droneBusy db id now m did d hm hs hdid hd hda]
            refine ⟨?_, ?_, ?_⟩
            · simp [Resp.isOk, hdid, hd, hda]
            · intro _; rfl
            · intro ma dida da hma hsa hdida hda' hsta
              injection hma with hma
              subst hma
              rw [hdid] at hdida
              injection hdida with hdida
              subst hdida
              rw [hd] at hda'
              injection hda' with hda'
              subst hda'
              exact absurd hsta hda
    · rw [startMission_badStatus db id now m hm hs]
      refine ⟨?_, ?_, ?_⟩
      · simp [Resp.isOk, hs]
      · intro _; rfl
      · intro ma dida da hma hsa hdida hda' hsta
        injection hma with hma
        subst hma
        exact absurd hsa hs

/-! ### Branch characterizations of the remaining operations -/

/-- Handler `updateMission` on a guarded status: 400, store unchanged. -/
theorem updateMission_locked (db : DB) (id nf : Nat) (m : Mission)
    (hm : findMission db id = some m)
    (hst : m.status = MissionStatus.IN_PROGRESS ∨ m.status = MissionStatus.COMPLETED ∨
      m.status = MissionStatus.ABORTED ∨ m.status = MissionStatus.FAILED) :
    updateMission db id nf =
      ⟨.httpError 400 "Cannot update mission that is in progress or completed", db, []⟩ := by
  unfold updateMission
  rw [hm]
  simp [hst]

/-- Handler `updateMission` on an unguarded status: fields replaced, event emitted. -/
theorem updateMission_applies (db : DB) (id nf : Nat) (m : Mission)
    (hm : findMission db id = some m)
    (hst : ¬ (m.status = MissionStatus.IN_PROGRESS ∨ m.status = MissionStatus.COMPLETED ∨
      m.status = MissionStatus.ABORTED ∨ m.status = MissionStatus.FAILED)) :
    updateMission db id nf =
      ⟨.okMission (setFields nf m), updMission db id (setFields nf),
       [.missionUpdated (setFields nf m)]⟩ := by
  unfold updateMission
  rw [hm]
  simp [hst]

/-- Handler `pauseMission` from a status other than IN_PROGRESS: 400, unchanged. -/
theorem pauseMission_invalid (db : DB) (id : Nat) (m : Mission)
    (hm : findMission db id = some m)
    (hst : ¬ m.status = MissionStatus.IN_PROGRESS) :
    pauseMission db id =
      ⟨.httpError 400 "Mission can only be paused if it is in progress", db, []⟩ := by
  unfold pauseMission
  rw [hm]
  simp [hst]

/-- Handler `resumeMission` from a status other than PAUSED: 400, unchanged. -/
theorem resumeMission_invalid (db : DB) (id : Nat) (m : Mission)
    (hm : findMission db id = some m)
    (hst : ¬ m.status = MissionStatus.PAUSED) :
    resumeMission db id =
      ⟨.httpError 400 "Mission can only be resumed if it is paused", db, []⟩ := by
  unfold resumeMission
  rw [hm]
  simp [hst]

/-- Handler `abortMission` from a status other than IN_PROGRESS/PAUSED: 400, unchanged. -/
theorem abortMission_invalid (db : DB) (id now : Nat) (m : Mission)
    (hm : findMission db id = some m)
    (hst : ¬ (m.status = MissionStatus.IN_PROGRESS ∨ m.status = MissionStatus.PAUSED)) :
    abortMission db id now =
      ⟨.httpError 400 "Mission can only be aborted if it is in progress or paused", db, []⟩ := by
  unfold abortMission
  rw [hm]
  simp [hst]

/-- Handler `abortMission` success with an assigned drone present in the registry. -/
theorem abortMission_success_drone (db : DB) (id now : Nat) (m : Mission)
    (did : Nat) (d : Drone)
    (hm : findMission db id = some m)
    (hst : m.status = MissionStatus.IN_PROGRESS ∨ m.status = MissionStatus.PAUSED)
    (hdid : m.droneId = some did)
    (hd : findDrone db did = some d) :
    abortMission db id now =
      ⟨.okMission (setAborted now m),
       updDrone (updMission db id (setAborted now)) did (setDroneStatus .AVAILABLE),
       [.missionAborted (setAborted now m),
        .droneStatusUpdated (setDroneStatus .AVAILABLE d)]⟩ := by
  unfold abortMission
  rw [hm]
  simp [hst, hdid, hd]

/-- The `mission:complete` handler when the mission exists and its assigned drone
is in the registry: no status guard, both writes applied, events emitted. -/
theorem completeHandler_drone (db : DB) (id dur dist cov now : Nat) (m : Mission)
    (did : Nat) (d : Drone)
    (hm : findMission db id = some m)
    (hdid : m.droneId = some did)
    (hd : findDrone db did = some d) :
    missionCompleteHandler db id dur dist cov now =
      ⟨.okMission (setCompleted dur dist cov now m),
       updDrone (updMission db id (setCompleted dur dist cov now)) did
         (setDroneStatus .AVAILABLE),
       [.missionCompleted (setCompleted dur dist cov now m),
        .droneStatusUpdated (setDroneStatus .AVAILABLE d)]⟩ := by
  unfold missionCompleteHandler
  rw [hm]
  simp [hdid, hd]

/-- The `mission:failed` handler when the mission exists and its assigned drone
is in the registry: no status guard, both writes applied, events emitted. -/
theorem failedHandler_drone (db : DB) (id now : Nat) (reason : String) (m : Mission)
    (did : Nat) (d : Drone)
    (hm : findMission db id = some m)
    (hdid : m.droneId = some did)
    (hd : findDrone db did = some d) :
    missionFailedHandler db id reason now =
      ⟨.okMission (setFailed now m),
       updDrone (updMission db id (setFailed now)) did (setDroneStatus .ERROR),
       [.missionFailed (setFailed now m) reason,
        .droneStatusUpdated (setDroneStatus .ERROR d)]⟩ := by
  unfold missionFailedHandler
  rw [hm]
  simp [hdid, hd]

/-- Handler `deleteMission` succeeds from any status except IN_PROGRESS and removes
only the mission row. -/
theorem deleteMission_applies (db : DB) (id : Nat) (m : Mission)
    (hm : findMission db id = some m)
    (hst : ¬ m.status = MissionStatus.IN_PROGRESS) :
    deleteMission db id =
      ⟨.okDelete, { db with missions := db.missions.filter (fun mm => mm.id != id) },
       [.missionDeleted id]⟩ := by
  unfold deleteMission
  rw [hm]
  simp [hst]

/-- Witness for C1: on `dbC1` every precondition holds and the call succeeds. -/
theorem C1_startMission_correct_witness :
    (startMission dbC1 1 5).resp.isOk = true :=
  (C1_startMission_correct dbC1 1 5).1.mpr
    ⟨⟨1, .PLANNED, some 7, none, none, none, none, none, 0⟩, 7,
     ⟨7, .AVAILABLE, 100⟩, rfl, Or.inl rfl, rfl, rfl, rfl⟩

/-! ### C2: the start/start race on a shared drone -/

/-- C2: the claim says that of two concurrent `startMission` calls whose
missions share a drone exactly one succeeds and the other gets a
ResourceConflict.  The source validates against a snapshot and then writes
unconditionally, so in the interleaving where both read phases complete
before either write phase BOTH calls succeed: both missions end IN_PROGRESS
and the shared drone is claimed twice.  This theorem evaluates that
interleaving on `dbC2`. -/
theorem C2_race_both_succeed :
    (startCommit dbC2 1 (startRead dbC2 1) 3).resp.isOk = true ∧
    (startCommit (startCommit dbC2 1 (startRead dbC2 1) 3).db 2
        (startRead dbC2 2) 4).resp.isOk = true ∧
    findMission (startCommit (startCommit dbC2 1 (startRead dbC2 1) 3).db 2
        (startRead dbC2 2) 4).db 1 =
      some ⟨1, .IN_PROGRESS, some 7, some 3, none, none, none, none, 0⟩ ∧
    findMission (startCommit (startCommit dbC2 1 (startRead dbC2 1) 3).db 2
        (startRead dbC2 2) 4).db 2 =
      some ⟨2, .IN_PROGRESS, some 7, some 4, none, none, none, none, 0⟩ ∧
    findDrone (startCommit (startCommit dbC2 1 (startRead dbC2 1) 3).db 2
        (startRead dbC2 2) 4).db 7 =
      some ⟨7, .IN_MISSION, 100⟩ := by
  decide

/-! ### C3: terminal missions -/

/-- C3 counterexample: the `mission:failed` handler performs no status check,
so it rewrites a COMPLETED (terminal) mission to FAILED. -/
theorem C3_counterexample :
    findMission dbC3 1 =
      some ⟨1, .COMPLETED, some 7, some 1, some 2, some 10, some 20, some 30, 0⟩ ∧
    (missionFailedHandler dbC3 1 "telemetry fault" 9).resp.isOk = true ∧
    findMission (missionFailedHandler dbC3 1 "telemetry fault" 9).db 1 =
      some ⟨1, .FAILED, some 7, some 1, some 9, some 10, some 20, some 30, 0⟩ := by
  decide

/-- C3 (amended): a mission in a terminal state (COMPLETED, ABORTED, FAILED)
is left entirely unchanged by `updateMission`, `startMission`,
`pauseMission`, `resumeMission` and `abortMission`, each of which rejects the
call; the two telemetry-driven handlers (`mission:complete`,
`mission:failed`) are excluded because they perform no status check. -/
theorem C3_terminal_frozen (db : DB) (id now nf : Nat) (m : Mission)
    (hm : findMission db id = some m)
    (ht : m.status = MissionStatus.COMPLETED ∨ m.status = MissionStatus.ABORTED ∨
      m.status = MissionStatus.FAILED) :
    (updateMission db id nf).db = db ∧ (updateMission db id nf).resp.isOk = false ∧
    (startMission db id now).db = db ∧ (startMission db id now).resp.isOk = false ∧
    (pauseMission db id).db = db ∧ (pauseMission db id).resp.isOk = false ∧
    (resumeMission db id).db = db ∧ (resumeMission db id).resp.isOk = false ∧
    (abortMission db id now).db = db ∧ (abortMission db id now).resp.isOk = false := by
  have hupd : m.status = MissionStatus.IN_PROGRESS ∨ m.status = MissionStatus.COMPLETED ∨
      m.status = MissionStatus.ABORTED ∨ m.status = MissionStatus.FAILED := by
    rcases ht with h | h | h <;> simp [h]
  have hs : ¬ (m.status = MissionStatus.PLANNED ∨ m.status = MissionStatus.SCHEDULED) := by
    rcases ht with h | h | h <;> simp [h]
  have hip : ¬ m.status = MissionStatus.IN_PROGRESS := by
    rcases ht with h | h | h <;> simp [h]
  have hpa : ¬ m.status = MissionStatus.PAUSED := by
    rcases ht with h | h | h <;> simp [h]
  have hab : ¬ (m.status = MissionStatus.IN_PROGRESS ∨ m.status = MissionStatus.PAUSED) := by
    rcases ht with h | h | h <;> simp [h]
  rw [updateMission_locked db id nf m hm hupd,
    startMission_badStatus db id now m hm hs,
    pauseMission_invalid db id m hm hip,
    resumeMission_invalid db id m hm hpa,
    abortMission_invalid db id now m hm hab]
  exact ⟨rfl, rfl, rfl, rfl, rfl, rfl, rfl, rfl, rfl, rfl⟩

/-- Witness for C3 (amended) on the COMPLETED fixture. -/
theorem C3_terminal_frozen_witness :
    (updateMission dbC3 1 42).db = dbC3 ∧ (updateMission dbC3 1 42).resp.isOk = false ∧
    (startMission dbC3 1 9).db = dbC3 ∧ (startMission dbC3 1 9).resp.isOk = false ∧
    (pauseMission dbC3 1).db = dbC3 ∧ (pauseMission dbC3 1).resp.isOk = false ∧
    (resumeMission dbC3 1).db = dbC3 ∧ (resumeMission dbC3 1).resp.isOk = false ∧
    (abortMission dbC3 1 9).db = dbC3 ∧ (abortMission dbC3 1 9).resp.isOk = false :=
  C3_terminal_frozen dbC3 1 9 42
    ⟨1, .COMPLETED, some 7, some 1, some 2, some 10, some 20, some 30, 0⟩ rfl (Or.inl rfl)

/-! ### C4: invalid source states -/

/-- C4 counterexample: `complete` from PLANNED (not a listed source state)
does not fail — the handler succeeds and rewrites the mission. -/
theorem C4_counterexample :
    findMission dbC4 1 = some ⟨1, .PLANNED, none, none, none, none, none, none, 0⟩ ∧
    (missionCompleteHandler dbC4 1 10 20 30 9).resp.isOk = true ∧
    findMission (missionCompleteHandler dbC4 1 10 20 30 9).db 1 =
      some ⟨1, .COMPLETED, none, none, some 9, some 10, some 20, some 30, 0⟩ := by
  decide

/-- C4 (amended): the four controller lifecycle operations (start, pause,
resume, abort) do reject any source state outside their valid set with a
400 invalid-state error and leave the store unchanged; the telemetry-driven
complete/fail handlers perform no such check. -/
theorem C4_controller_guards (db : DB) (id now : Nat) (m : Mission)
    (hm : findMission db id = some m) :
    (¬ (m.status = MissionStatus.PLANNED ∨ m.status = MissionStatus.SCHEDULED) →
      (startMission db id now).resp =
        .httpError 400 "Mission can only be started if it is planned or scheduled" ∧
      (startMission db id now).db = db) ∧
    (¬ m.status = MissionStatus.IN_PROGRESS →
      (pauseMission db id).resp =
        .httpError 400 "Mission can only be paused if it is in progress" ∧
      (pauseMission db id).db = db) ∧
    (¬ m.status = MissionStatus.PAUSED →
      (resumeMission db id).resp =
        .httpError 400 "Mission can only be resumed if it is paused" ∧
      (resumeMission db id).db = db) ∧
    (¬ (m.status = MissionStatus.IN_PROGRESS ∨ m.status = MissionStatus.PAUSED) →
      (abortMission db id now).resp =
        .httpError 400 "Mission can only be aborted if it is in progress or paused" ∧
      (abortMission db id now).db = db) := by
  refine ⟨fun hst => ?_, fun hst => ?_, fun hst => ?_, fun hst => ?_⟩
  · rw [startMission_badStatus db id now m hm hst]; exact ⟨rfl, rfl⟩
  · rw [pauseMission_invalid db id m hm hst]; exact ⟨rfl, rfl⟩
  · rw [resumeMission_invalid db id m hm hst]; exact ⟨rfl, rfl⟩
  · rw [abortMission_invalid db id now m hm hst]; exact ⟨rfl, rfl⟩

/-- Witness for C4 (amended) on an ABORTED fixture: every guard fires. -/
theorem C4_controller_guards_witness :
    (startMission dbC4t 1 9).db = dbC4t ∧ (pauseMission dbC4t 1).db = dbC4t ∧
    (resumeMission dbC4t 1).db = dbC4t ∧ (abortMission dbC4t 1 9).db = dbC4t :=
  ⟨((C4_controller_guards dbC4t 1 9
      ⟨1, .ABORTED, none, some 1, some 2, none, none, none, 0⟩ rfl).1 (by decide)).2,
   ((C4_controller_guards dbC4t 1 9
      ⟨1, .ABORTED, none, some 1, some 2, none, none, none, 0⟩ rfl).2.1 (by decide)).2,
   ((C4_controller_guards dbC4t 1 9
      ⟨1, .ABORTED, none, some 1, some 2, none, none, none, 0⟩ rfl).2.2.1 (by decide)).2,
   ((C4_controller_guards dbC4t 1 9
      ⟨1, .ABORTED, none, some 1, some 2, none, none, none, 0⟩ rfl).2.2.2 (by decide)).2⟩

/-! ### C5: atomicity of the paired write -/

/-- C5: the claim says the mission+drone write pair is atomic and an error
leaves the state unchanged.  The source issues the two updates as
independent store transactions inside a `Promise.all`; when the drone write
fails, the handler answers 500 yet the mission write stays committed: the
store is observably half-applied (mission IN_PROGRESS, drone still
AVAILABLE). -/
theorem C5_half_applied :
    (startMissionDroneWriteFails dbC5 1 3).resp.isOk = false ∧
    findMission (startMissionDroneWriteFails dbC5 1 3).db 1 =
      some ⟨1, .IN_PROGRESS, some 7, some 3, none, none, none, none, 0⟩ ∧
    findDrone (startMissionDroneWriteFails dbC5 1 3).db 7 =
      some ⟨7, .AVAILABLE, 100⟩ ∧
    (startMissionDroneWriteFails dbC5 1 3).db ≠ dbC5 := by
  decide

/-! ### C6: drone release on abort / complete / fail -/

/-- C6: for a mission with an assigned drone present in the registry, a
successful `abortMission` or `mission:complete` leaves that drone AVAILABLE
and a successful `mission:failed` leaves it ERROR; neither result is
IN_MISSION. -/
theorem C6_drone_released (db : DB) (id now dur dist cov : Nat) (reason : String)
    (m : Mission) (did : Nat) (d : Drone)
    (hm : findMission db id = some m)
    (hdid : m.droneId = some did)
    (hd : findDrone db did = some d) :
    ((abortMission db id now).resp.isOk = true →
      findDrone (abortMission db id now).db did =
        some (setDroneStatus DroneStatus.AVAILABLE d)) ∧
    ((missionCompleteHandler db id dur dist cov now).resp.isOk = true →
      findDrone (missionCompleteHandler db id dur dist cov now).db did =
        some (setDroneStatus DroneStatus.AVAILABLE d)) ∧
    ((missionFailedHandler db id reason now).resp.isOk = true →
      findDrone (missionFailedHandler db id reason now).db did =
        some (setDroneStatus DroneStatus.ERROR d)) ∧
    (setDroneStatus DroneStatus.AVAILABLE d).status ≠ DroneStatus.IN_MISSION ∧
    (setDroneStatus DroneStatus.ERROR d).status ≠ DroneStatus.IN_MISSION := by
  refine ⟨?_, ?_, ?_, by simp [setDroneStatus], by simp [setDroneStatus]⟩
  · intro hok
    by_cases hst : (m.status = MissionStatus.IN_PROGRESS ∨ m.status = MissionStatus.PAUSED)
    · rw [abortMission_success_drone db id now m did d hm hst hdid hd]
      dsimp only
      rw [findDrone_updDrone (updMission db id (setAborted now)) did
          (setDroneStatus .AVAILABLE) (fun _ => rfl),
        findDrone_updMission, hd]
      rfl
    · rw [abortMission_invalid db id now m hm hst] at hok
      exact absurd hok (by simp [Resp.isOk])
  · intro _
    rw [completeHandler_drone db id dur dist cov now m did d hm hdid hd]
    dsimp only
    rw [findDrone_updDrone (updMission db id (setCompleted dur dist cov now)) did
        (setDroneStatus .AVAILABLE) (fun _ => rfl),
      findDrone_updMission, hd]
    rfl
  · intro _
    rw [failedHandler_drone db id now reason m did d hm hdid hd]
    dsimp only
    rw [findDrone_updDrone (updMission db id (setFailed now)) did
        (setDroneStatus .ERROR) (fun _ => rfl),
      findDrone_updMission, hd]
    rfl

/-- Witness for C6 on the IN_PROGRESS fixture with drone 7 IN_MISSION. -/
theorem C6_drone_released_witness :
    findDrone (abortMission dbC6 1 9).db 7 = some ⟨7, .AVAILABLE, 80⟩ ∧
    findDrone (missionCompleteHandler dbC6 1 10 20 30 9).db 7 =
      some ⟨7, .AVAILABLE, 80⟩ ∧
    findDrone (missionFailedHandler dbC6 1 "motor fault" 9).db 7 =
      some ⟨7, .ERROR, 80⟩ :=
  ⟨(C6_drone_released dbC6 1 9 10 20 30 "motor fault"
      ⟨1, .IN_PROGRESS, some 7, some 1, none, none, none, none, 0⟩ 7
      ⟨7, .IN_MISSION, 80⟩ rfl rfl rfl).1 (by decide),
   (C6_drone_released dbC6 1 9 10 20 30 "motor fault"
      ⟨1, .IN_PROGRESS, some 7, some 1, none, none, none, none, 0⟩ 7
      ⟨7, .IN_MISSION, 80⟩ rfl rfl rfl).2.1 (by decide),
   (C6_drone_released dbC6 1 9 10 20 30 "motor fault"
      ⟨1, .IN_PROGRESS, some 7, some 1, none, none, none, none, 0⟩ 7
      ⟨7, .IN_MISSION, 80⟩ rfl rfl rfl).2.2.1 (by decide)⟩

/-! ### C7: updateMission edit policy -/

/-- C7 counterexample: the claim says `updateMission` on a PAUSED mission
fails with MissionLocked and leaves the record unchanged; the source's guard
list is only IN_PROGRESS/COMPLETED/ABORTED/FAILED, so the update on a PAUSED
mission succeeds and replaces the fields. -/
theorem C7_counterexample :
    findMission dbC7 1 = some ⟨1, .PAUSED, none, some 1, none, none, none, none, 0⟩ ∧
    (updateMission dbC7 1 42).resp.isOk = true ∧
    findMission (updateMission dbC7 1 42).db 1 =
      some ⟨1, .PAUSED, none, some 1, none, none, none, none, 42⟩ := by
  decide

/-- C7 (amended): `updateMission` is accepted exactly when the status is
PLANNED, SCHEDULED or PAUSED (fields replaced); from IN_PROGRESS, COMPLETED,
ABORTED or FAILED it fails with the 400 locked error and the record is
untouched. -/
theorem C7_updateMission_policy (db : DB) (id nf : Nat) (m : Mission)
    (hm : findMission db id = some m) :
    ((m.status = MissionStatus.IN_PROGRESS ∨ m.status = MissionStatus.COMPLETED ∨
        m.status = MissionStatus.ABORTED ∨ m.status = MissionStatus.FAILED) →
      (updateMission db id nf).resp =
        .httpError 400 "Cannot update mission that is in progress or completed" ∧
      (updateMission db id nf).db = db) ∧
    ((m.status = MissionStatus.PLANNED ∨ m.status = MissionStatus.SCHEDULED ∨
        m.status = MissionStatus.PAUSED) →
      (updateMission db id nf).resp = .okMission (setFields nf m) ∧
      findMission (updateMission db id nf).db id = some (setFields nf m)) := by
  constructor
  · intro hst
    rw [updateMission_locked db id nf m hm hst]
    exact ⟨rfl, rfl⟩
  · intro hst
    have hng : ¬ (m.status = MissionStatus.IN_PROGRESS ∨ m.status = MissionStatus.COMPLETED ∨
        m.status = MissionStatus.ABORTED ∨ m.status = MissionStatus.FAILED) := by
      rcases hst with h | h | h <;> simp [h]
    rw [updateMission_applies db id nf m hm hng]
    refine ⟨rfl, ?_⟩
    dsimp only
    rw [findMission_updMission db id (setFields nf) (fun _ => rfl), hm]
    rfl

/-- Witness for C7 (amended): the PAUSED fixture takes the accepting branch. -/
theorem C7_updateMission_policy_witness :
    (updateMission dbC7 1 42).resp =
      .okMission (setFields 42 ⟨1, .PAUSED, none, some 1, none, none, none, none, 0⟩) ∧
    findMission (updateMission dbC7 1 42).db 1 =
      some (setFields 42 ⟨1, .PAUSED, none, some 1, none, none, none, none, 0⟩) :=
  (C7_updateMission_policy dbC7 1 42
    ⟨1, .PAUSED, none, some 1, none, none, none, none, 0⟩ rfl).2
    (Or.inr (Or.inr rfl))

/-! ### C8: event ordering on committed mission+drone transitions -/

/-- C8: every committed transition that changes both a mission and a drone
emits exactly one mission event followed by exactly one drone event: a
successful start emits `mission:started` then `drone:status_updated`; a
successful abort of a mission with an assigned drone emits `mission:aborted`
then `drone:status_updated`; the `mission:complete` and `mission:failed`
handlers on a mission with an assigned drone emit `mission:completed` /
`mission:failed` then `drone:status_updated`. -/
theorem C8_events_ordered :
    (∀ (db : DB) (id now : Nat) (m : Mission) (did : Nat) (d : Drone),
      findMission db id = some m →
      (m.status = MissionStatus.PLANNED ∨ m.status = MissionStatus.SCHEDULED) →
      m.droneId = some did → findDrone db did = some d →
      d.status = DroneStatus.AVAILABLE →
      (startMission db id now).events =
        [Event.missionStarted (setStarted now m),
         Event.droneStatusUpdated (setDroneStatus DroneStatus.IN_MISSION d)]) ∧
    (∀ (db : DB) (id now : Nat) (m : Mission) (did : Nat) (d : Drone),
      findMission db id = some m →
      (m.status = MissionStatus.IN_PROGRESS ∨ m.status = MissionStatus.PAUSED) →
      m.droneId = some did → findDrone db did = some d →
      (abortMission db id now).events =
        [Event.missionAborted (setAborted now m),
         Event.droneStatusUpdated (setDroneStatus DroneStatus.AVAILABLE d)]) ∧
    (∀ (db : DB) (id dur dist cov now : Nat) (m : Mission) (did : Nat) (d : Drone),
      findMission db id = some m →
      m.droneId = some did → findDrone db did = some d →
      (missionCompleteHandler db id dur dist cov now).events =
        [Event.missionCompleted (setCompleted dur dist cov now m),
         Event.droneStatusUpdated (setDroneStatus DroneStatus.AVAILABLE d)]) ∧
    (∀ (db : DB) (id now : Nat) (reason : String) (m : Mission) (did : Nat) (d : Drone),
      findMission db id = some m →
      m.droneId = some did → findDrone db did = some d →
      (missionFailedHandler db id reason now).events =
        [Event.missionFailed (setFailed now m) reason,
         Event.droneStatusUpdated (setDroneStatus DroneStatus.ERROR d)]) := by
  refine ⟨?_, ?_, ?_, ?_⟩
  · intro db id now m did d hm hs hdid hd hda
    rw [startMission_success db id now m did d hm hs hdid hd hda]
  · intro db id now m did d hm hs hdid hd
    rw [abortMission_success_drone db id now m did d hm hs hdid hd]
  · intro db id dur dist cov now m did d hm hdid hd
    rw [completeHandler_drone db id dur dist cov now m did d hm hdid hd]
  · intro db id now reason m did d hm hdid hd
    rw [failedHandler_drone db id now reason m did d hm hdid hd]

/-- Witness for C8: start on `dbC8s`; abort, complete and fail on `dbC8a`. -/
theorem C8_events_ordered_witness :
    (startMission dbC8s 1 5).events =
      [Event.missionStarted ⟨1, .IN_PROGRESS, some 7, some 5, none, none, none, none, 0⟩,
       Event.droneStatusUpdated ⟨7, .IN_MISSION, 100⟩] ∧
    (abortMission dbC8a 1 9).events =
      [Event.missionAborted ⟨1, .ABORTED, some 7, some 1, some 9, none, none, none, 0⟩,
       Event.droneStatusUpdated ⟨7, .AVAILABLE, 80⟩] ∧
    (missionCompleteHandler dbC8a 1 10 20 30 9).events =
      [Event.missionCompleted
         ⟨1, .COMPLETED, some 7, some 1, some 9, some 10, some 20, some 30, 0⟩,
       Event.droneStatusUpdated ⟨7, .AVAILABLE, 80⟩] ∧
    (missionFailedHandler dbC8a 1 "link lost" 9).events =
      [Event.missionFailed ⟨1, .FAILED, some 7, some 1, some 9, none, none, none, 0⟩
         "link lost",
       Event.droneStatusUpdated ⟨7, .ERROR, 80⟩] :=
  ⟨C8_events_ordered.1 dbC8s 1 5
      ⟨1, .PLANNED, some 7, none, none, none, none, none, 0⟩ 7
      ⟨7, .AVAILABLE, 100⟩ rfl (Or.inl rfl) rfl rfl rfl,
   C8_events_ordered.2.1 dbC8a 1 9
      ⟨1, .IN_PROGRESS, some 7, some 1, none, none, none, none, 0⟩ 7
      ⟨7, .IN_MISSION, 80⟩ rfl (Or.inl rfl) rfl rfl,
   C8_events_ordered.2.2.1 dbC8a 1 10 20 30 9
      ⟨1, .IN_PROGRESS, some 7, some 1, none, none, none, none, 0⟩ 7
      ⟨7, .IN_MISSION, 80⟩ rfl rfl rfl,
   C8_events_ordered.2.2.2 dbC8a 1 9 "link lost"
      ⟨1, .IN_PROGRESS, some 7, some 1, none, none, none, none, 0⟩ 7
      ⟨7, .IN_MISSION, 80⟩ rfl rfl rfl⟩

/-! ### C9: reportMissionFailed -/

/-- C9: on an IN_PROGRESS mission with an assigned drone (present in the
registry), `mission:failed` sets the mission to FAILED with `completedAt`,
sets the drone to ERROR, and emits a `mission:failed` event whose payload
carries the supplied reason, followed by the drone update event. -/
theorem C9_reportFailed (db : DB) (id now : Nat) (reason : String) (m : Mission)
    (did : Nat) (d : Drone)
    (hm : findMission db id = some m)
    (_hst : m.status = MissionStatus.IN_PROGRESS)
    (hdid : m.droneId = some did)
    (hd : findDrone db did = some d) :
    (missionFailedHandler db id reason now).resp = .okMission (setFailed now m) ∧
    findMission (missionFailedHandler db id reason now).db id = some (setFailed now m) ∧
    (setFailed now m).status = MissionStatus.FAILED ∧
    (setFailed now m).completedAt = some now ∧
    findDrone (missionFailedHandler db id reason now).db did =
      some (setDroneStatus DroneStatus.ERROR d) ∧
    (setDroneStatus DroneStatus.ERROR d).status = DroneStatus.ERROR ∧
    (missionFailedHandler db id reason now).events =
      [Event.missionFailed (setFailed now m) reason,
       Event.droneStatusUpdated (setDroneStatus DroneStatus.ERROR d)] := by
  rw [failedHandler_drone db id now reason m did d hm hdid hd]
  refine ⟨rfl, ?_, rfl, rfl, ?_, rfl, rfl⟩
  · dsimp only
    rw [findMission_updDrone,
      findMission_updMission db id (setFailed now) (fun _ => rfl), hm]
    rfl
  · dsimp only
    rw [findDrone_updDrone (updMission db id (setFailed now)) did
        (setDroneStatus .ERROR) (fun _ => rfl),
      findDrone_updMission, hd]
    rfl

/-- Witness for C9 on the IN_PROGRESS fixture. -/
theorem C9_reportFailed_witness :
    (missionFailedHandler dbC9 1 "geofence breach" 9).resp =
      .okMission ⟨1, .FAILED, some 7, some 1, some 9, none, none, none, 0⟩ ∧
    (missionFailedHandler dbC9 1 "geofence breach" 9).events =
      [Event.missionFailed ⟨1, .FAILED, some 7, some 1, some 9, none, none, none, 0⟩
         "geofence breach",
       Event.droneStatusUpdated ⟨7, .ERROR, 60⟩] :=
  ⟨(C9_reportFailed dbC9 1 9 "geofence breach"
      ⟨1, .IN_PROGRESS, some 7, some 1, none, none, none, none, 0⟩ 7
      ⟨7, .IN_MISSION, 60⟩ rfl rfl rfl rfl).1,
   (C9_reportFailed dbC9 1 9 "geofence breach"
      ⟨1, .IN_PROGRESS, some 7, some 1, none, none, none, none, 0⟩ 7
      ⟨7, .IN_MISSION, 60⟩ rfl rfl rfl rfl).2.2.2.2.2.2⟩

/-! ### C10: deleteMission never touches drones -/

/-- C10: `deleteMission` never modifies any drone row — the drone table of
the resulting store is identical; in particular deleting a PAUSED mission
succeeds and its assigned drone's registry entry (e.g. IN_MISSION) is
exactly what it was before, even though no mission references it anymore. -/
theorem C10_delete_drone_frame (db : DB) (id : Nat) :
    (deleteMission db id).db.drones = db.drones ∧
    (∀ m, findMission db id = some m → m.status = MissionStatus.PAUSED →
      (deleteMission db id).resp = Resp.okDelete ∧
      (∀ did, findDrone (deleteMission db id).db did = findDrone db did)) := by
  constructor
  · unfold deleteMission
    cases hm : findMission db id with
    | none => rfl
    | some m =>
      by_cases hst : m.status = MissionStatus.IN_PROGRESS
      · simp [hst]
      · simp [hst]
  · intro m hm hst
    have hni : ¬ m.status = MissionStatus.IN_PROGRESS := by simp [hst]
    rw [deleteMission_applies db id m hm hni]
    exact ⟨rfl, fun did => rfl⟩

/-- Witness for C10: deleting the PAUSED mission of `dbC10` leaves drone 7
IN_MISSION. -/
theorem C10_delete_drone_frame_witness :
    (deleteMission dbC10 1).db.drones = dbC10.drones ∧
    (deleteMission dbC10 1).resp = Resp.okDelete ∧
    findDrone (deleteMission dbC10 1).db 7 = some ⟨7, .IN_MISSION, 70⟩ :=
  ⟨(C10_delete_drone_frame dbC10 1).1,
   ((C10_delete_drone_frame dbC10 1).2
      ⟨1, .PAUSED, some 7, some 1, none, none, none, none, 0⟩ rfl rfl).1,
   by
    rw [((C10_delete_drone_frame dbC10 1).2
      ⟨1, .PAUSED, some 7, some 1, none, none, none, none, 0⟩ rfl rfl).2 7]
    rfl⟩
